import Mathlib

/-!
# terraform-plan-importer: registry, dispatch and AWS resolvers

A shallow embedding of `importer/importer.go`, `importer/aws/aws.go` and
`importer/aws/importers.go`.

* A Go `error` is represented by its message (`Error()`); `nil` is `none`.
* A Go function that may panic runs in `Exec`, which also records every request that is
  sent to the remote API, in order.
* The remote API reached through the AWS session is a record of response functions, one
  per SDK operation (`Session`).  The pointer fields of SDK response entries that the
  resolvers dereference are taken to be set, as the AWS API returns them for every entry.
* `cty.Value` follows the go-cty library: a type and a payload that is null, unknown or
  a native value.
-/

namespace TerraformPlanImporter

/-! ## Execution model -/

/-- A Go `error`, represented by the string its `Error()` method returns. -/
abbrev GoError := String

/-- Result of running Go code: a value, or a panic with its message. -/
inductive Res (α : Type) where
  | val (a : α)
  | panic (msg : String)
  deriving DecidableEq, Repr

/-! ## go-cty -/

/-- The go-cty type of a value (`cty.Type`).  `nilType` is the zero `cty.Type`
(`cty.NilType`), the type of the zero `cty.Value`; `string` is `cty.String`. -/
inductive CtyType where
  | nilType
  | string
  | number
  | bool
  | dynamicPseudoType
  | list (elem : CtyType)
  | set (elem : CtyType)
  | map (elem : CtyType)
  | tuple (elems : List CtyType)
  | object (attrs : List (String × CtyType))
  | capsule (name : String)

/-- Go's `t == cty.String` on `cty.Type` values. -/
def CtyType.isString : CtyType → Bool
  | CtyType.string => true
  | _ => false

/-- What a `cty.Value` holds besides its type: nothing (null), the unknown marker, a
native Go string, or a native value of another Go type. -/
inductive Payload where
  | null
  | unknown
  | str (s : String)
  | other
  deriving DecidableEq, Repr

/-- A `cty.Value`. -/
structure Value where
  ty : CtyType
  v : Payload

/-- The zero `cty.Value` (`cty.NilVal`), which a Go map lookup yields for a missing key. -/
def cty.NilVal : Value := ⟨CtyType.nilType, Payload.null⟩

/-- The constructor `cty.StringVal(s)`. -/
def cty.StringVal (s : String) : Value := ⟨CtyType.string, Payload.str s⟩

/-- The constructor `cty.NullVal(t)`. -/
def cty.NullVal (t : CtyType) : Value := ⟨t, Payload.null⟩

/-- The constructor `cty.UnknownVal(t)`. -/
def cty.UnknownVal (t : CtyType) : Value := ⟨t, Payload.unknown⟩

/-- The method `Value.Type()`. -/
def Value.TypeOf (val : Value) : CtyType := val.ty

/-- The method `Value.AsString()`: the native string of a known, non-null `cty.String` value; it
panics on every other value. -/
def Value.AsString (val : Value) : Res String :=
  if val.ty.isString then
    match val.v with
    | Payload.null => Res.panic "value is null"
    | Payload.unknown => Res.panic "value is unknown"
    | Payload.str s => Res.val s
    | Payload.other => Res.panic "interface conversion: interface is not string"
  else Res.panic "not a string"

/-- Renderings of a `cty.Type` that come from the Go libraries and are left open here:
`verbV` is what `fmt` prints for the `%v` verb, `friendlyName` is what `FriendlyName()`
returns on a valid type. -/
structure GoLib where
  verbV : CtyType → String
  friendlyName : CtyType → String

/-- The method `Type.FriendlyName()`: it calls a method of the embedded implementation, which is a
nil interface in `cty.NilType`, so the call panics there. -/
def CtyType.FriendlyName (lib : GoLib) : CtyType → Res String
  | CtyType.nilType => Res.panic "runtime error: invalid memory address or nil pointer dereference"
  | t => Res.val (lib.friendlyName t)

/-- A Go `map[string]cty.Value`, as an association list. -/
abbrev Params := List (String × Value)

/-- Go's map index expression `m[key]`: the zero value when the key is missing. -/
def Params.index (m : Params) (key : String) : Value :=
  (m.lookup key).getD cty.NilVal

/-! ## AWS SDK requests and responses -/

/-- An `ec2.Filter`. -/
structure Filter where
  Name : String
  Values : List String
  deriving DecidableEq, Repr

/-- A request sent to the remote API: the SDK operation and its input. -/
inductive Request where
  | DescribeCacheClusters (CacheClusterId : String)
  | ListServices
  | GetRole (RoleName : String)
  | DescribeScalingPolicies (PolicyNames : List String) (ServiceNamespace : String)
  | DescribeDBInstances (DBInstanceIdentifier : String)
  | DescribeServices (Cluster : String) (Services : List String)
  | DescribeSecurityGroups (Filters : List Filter)
  | GetParameter (Name : String)
  | DescribeRepositories (RepositoryNames : List String)
  | DescribeLogGroups (LogGroupNamePrefix : String)
  deriving DecidableEq, Repr

/-- An `elasticache.CacheCluster`. -/
structure CacheCluster where
  CacheClusterId : String
  deriving DecidableEq, Repr

/-- A `servicediscovery.ServiceSummary`. -/
structure ServiceSummary where
  Name : String
  Id : String
  deriving DecidableEq, Repr

/-- An `applicationautoscaling.ScalingPolicy`. -/
structure ScalingPolicy where
  PolicyName : String
  deriving DecidableEq, Repr

/-- An `rds.DBInstance`. -/
structure DBInstance where
  DBInstanceIdentifier : String
  deriving DecidableEq, Repr

/-- An `ecs.Service`. -/
structure EcsService where
  ServiceName : String
  deriving DecidableEq, Repr

/-- An `ec2.SecurityGroup`. -/
structure SecurityGroup where
  GroupName : String
  GroupId : String
  deriving DecidableEq, Repr

/-- An `ssm.Parameter`. -/
structure Parameter where
  Name : String
  deriving DecidableEq, Repr

/-- An `ecr.Repository`. -/
structure Repository where
  RepositoryName : String
  deriving DecidableEq, Repr

/-- A `cloudwatchlogs.LogGroup`. -/
structure LogGroup where
  LogGroupName : String
  deriving DecidableEq, Repr

/-- The AWS session: what the remote API answers to each operation, an error or the
listing of the operation's output. -/
structure Session where
  DescribeCacheClusters : String → Except GoError (List CacheCluster)
  ListServices : Except GoError (List ServiceSummary)
  GetRole : String → Except GoError Unit
  DescribeScalingPolicies : List String → String → Except GoError (List ScalingPolicy)
  DescribeDBInstances : String → Except GoError (List DBInstance)
  DescribeServices : String → List String → Except GoError (List EcsService)
  DescribeSecurityGroups : List Filter → Except GoError (List SecurityGroup)
  GetParameter : String → Except GoError Parameter
  DescribeRepositories : List String → Except GoError (List Repository)
  DescribeLogGroups : String → Except GoError (List LogGroup)

/-- The `Aws` plugin. -/
structure Aws where
  session : Session

/-- A run of Go code: the requests it sent to the remote API, in order, and how it ended. -/
structure Exec (α : Type) where
  calls : List Request
  res : Res α
  deriving DecidableEq

/-- Sequencing: a panic stops the run; otherwise the requests of the continuation follow. -/
def Exec.bind {α β : Type} (m : Exec α) (f : α → Exec β) : Exec β :=
  match m.res with
  | Res.panic msg => ⟨m.calls, Res.panic msg⟩
  | Res.val a => ⟨m.calls ++ (f a).calls, (f a).res⟩

instance : Monad Exec where
  pure a := ⟨[], Res.val a⟩
  bind := Exec.bind

/-- Code that sends nothing: evaluation of an expression that may panic. -/
def Exec.eval {α : Type} (r : Res α) : Exec α := ⟨[], r⟩

/-- One SDK call: the request is sent and the session's answer comes back. -/
def Exec.call {α : Type} (req : Request) (answer : Except GoError α) :
    Exec (Except GoError α) := ⟨[req], Res.val answer⟩

/-- The pieces of a character list between occurrences of `sep`. -/
def splitChars (sep : Char) : List Char → List (List Char)
  | [] => [[]]
  | c :: cs =>
    if c = sep then [] :: splitChars sep cs
    else
      match splitChars sep cs with
      | [] => [[c]]
      | piece :: rest => (c :: piece) :: rest

/-- Go's `strings.Split(s, sep)` for a separator of one character, the form the source
calls it in (`strings.Split(cluster, "/")`). -/
def strings.Split (s : String) (sep : Char) : List String :=
  (splitChars sep s.data).map String.mk

/-- Go's `xs[len(xs)-1]`: the last element, a panic on an empty slice. -/
def lastIndex (xs : List String) : Res String :=
  match xs.getLast? with
  | some x => Res.val x
  | none => Res.panic "runtime error: index out of range [-1]"

/-! ## importer/aws/importers.go -/

/-- The Go return type `(string, error)`. -/
abbrev ImportName := String × Option GoError

def getElasticacheClusterImportName (lib : GoLib) (a : Aws) (name : String)
    (resourceParameters : Params) : Exec ImportName := do
  let possibleClusterID := resourceParameters.index "cluster_id"
  if possibleClusterID.TypeOf.isString then
    let clusterID ← Exec.eval possibleClusterID.AsString
    let answer ← Exec.call (Request.DescribeCacheClusters clusterID)
      (a.session.DescribeCacheClusters clusterID)
    match answer with
    | Except.error err => pure ("", some err)
    | Except.ok output =>
      match output.find? (fun cluster => cluster.CacheClusterId = clusterID) with
      | some _ => pure (clusterID, none)
      | none => pure ("", some ("aws_elasticache_cluster not found " ++ clusterID))
  else
    pure ("", some ("skipping " ++ name ++ " because its cluster id was not a string but "
      ++ lib.verbV possibleClusterID.TypeOf))

def getServiceDiscoveryServiceImportName (a : Aws) (name : String) : Exec ImportName := do
  let answer ← Exec.call Request.ListServices a.session.ListServices
  match answer with
  | Except.error err => pure ("", some err)
  | Except.ok output =>
    match output.find? (fun service => service.Name = name) with
    | some service => pure (service.Id, none)
    | none => pure ("", some ("aws_service_discovery_service not found " ++ name))

def getIamRoleImportName (a : Aws) (name : String) : Exec ImportName := do
  let answer ← Exec.call (Request.GetRole name) (a.session.GetRole name)
  match answer with
  | Except.error _ => pure ("", none)
  | Except.ok _ => pure (name, none)

def getAppAutoScalingPolicyImportName (lib : GoLib) (a : Aws) (name : String)
    (resourceParameters : Params) : Exec ImportName := do
  let serviceNamespace := resourceParameters.index "identifier"
  if serviceNamespace.TypeOf.isString then
    let namespace_ ← Exec.eval serviceNamespace.AsString
    let answer ← Exec.call (Request.DescribeScalingPolicies [name] namespace_)
      (a.session.DescribeScalingPolicies [name] namespace_)
    match answer with
    | Except.error err => pure ("", some err)
    | Except.ok output =>
      match output.find? (fun policy => policy.PolicyName = name) with
      | some _ => pure (name, none)
      | none => pure ("", some ("aws_appautoscaling_policy not found " ++ name))
  else
    pure ("", some ("skipping " ++ name
      ++ " because its service namespace was not a string but "
      ++ lib.verbV serviceNamespace.TypeOf))

def getRdsInstance (lib : GoLib) (a : Aws) (name : String)
    (resourceParameters : Params) : Exec ImportName := do
  let possibleIdentifier := resourceParameters.index "identifier"
  if possibleIdentifier.TypeOf.isString then
    let identifier ← Exec.eval possibleIdentifier.AsString
    let answer ← Exec.call (Request.DescribeDBInstances identifier)
      (a.session.DescribeDBInstances identifier)
    match answer with
    | Except.error err => pure ("", some err)
    | Except.ok output =>
      match output.find? (fun instance_ => instance_.DBInstanceIdentifier = identifier) with
      | some _ => pure (identifier, none)
      | none => pure ("", some ("aws_db_instance not found " ++ name))
  else
    let friendly ← Exec.eval (possibleIdentifier.TypeOf.FriendlyName lib)
    pure ("", some ("skipping " ++ name ++ " because its identifier was not a string but "
      ++ friendly))

def getEcsServiceImportName (lib : GoLib) (a : Aws) (name : String)
    (resourceParameters : Params) : Exec ImportName := do
  let possibleCluster := resourceParameters.index "cluster"
  if possibleCluster.TypeOf.isString then
    let cluster ← Exec.eval possibleCluster.AsString
    let answer ← Exec.call (Request.DescribeServices cluster [name])
      (a.session.DescribeServices cluster [name])
    match answer with
    | Except.error _ => pure ("", none)
    | Except.ok output =>
      match output.find? (fun service => service.ServiceName = name) with
      | some _ =>
        let clusterName := strings.Split cluster '/'
        let last ← Exec.eval (lastIndex clusterName)
        pure (last ++ "/" ++ name, none)
      | none => pure ("", some ("aws_ecs_service not found " ++ name))
  else
    let friendly ← Exec.eval (possibleCluster.TypeOf.FriendlyName lib)
    pure ("", some ("skipping " ++ name ++ " because its cluster was not a string but "
      ++ friendly))

def getSecurityGroupImportName (lib : GoLib) (a : Aws) (name : String)
    (resourceParameters : Params) : Exec ImportName := do
  let possibleVpcID := resourceParameters.index "vpc_id"
  if possibleVpcID.TypeOf.isString then
    let vpcID ← Exec.eval possibleVpcID.AsString
    let vpcFilter : Filter := ⟨"vpc-id", [vpcID]⟩
    let nameFilter : Filter := ⟨"group-name", [name]⟩
    let answer ← Exec.call (Request.DescribeSecurityGroups [vpcFilter, nameFilter])
      (a.session.DescribeSecurityGroups [vpcFilter, nameFilter])
    match answer with
    | Except.error err => pure ("", some err)
    | Except.ok output =>
      match output.find? (fun securityGroup => securityGroup.GroupName = name) with
      | some securityGroup => pure (securityGroup.GroupId, none)
      | none => pure ("", some ("aws_security_group not found " ++ name))
  else
    let friendly ← Exec.eval (possibleVpcID.TypeOf.FriendlyName lib)
    pure ("", some ("skipping " ++ name ++ " because its vpc id was not a string but "
      ++ friendly))

def getSsmParameterImportName (a : Aws) (name : String) : Exec ImportName := do
  let answer ← Exec.call (Request.GetParameter name) (a.session.GetParameter name)
  match answer with
  | Except.error _ => pure ("", none)
  | Except.ok output => pure (output.Name, none)

def getEcrImportName (a : Aws) (name : String) : Exec ImportName := do
  let answer ← Exec.call (Request.DescribeRepositories [name])
    (a.session.DescribeRepositories [name])
  match answer with
  | Except.error _ => pure ("", none)
  | Except.ok output =>
    match output.find? (fun repository => repository.RepositoryName = name) with
    | some _ => pure (name, none)
    | none => pure ("", some ("aws_ecr_repository not found " ++ name))

def getCloudWatchGroupImportName (a : Aws) (name : String) : Exec ImportName := do
  let answer ← Exec.call (Request.DescribeLogGroups name) (a.session.DescribeLogGroups name)
  match answer with
  | Except.error _ => pure ("", none)
  | Except.ok output =>
    match output.find? (fun group => group.LogGroupName = name) with
    | some _ => pure (name, none)
    | none => pure ("", some ("aws_cloudwatch_log_group not found " ++ name))

/-! ## importer/aws/aws.go -/

/-- The resource types the `switch` of `GetImportName` has a case for, in source order. -/
def supportedResourceTypes : List String :=
  ["aws_elasticache_cluster", "aws_cloudwatch_log_group", "aws_ecr_repository",
   "aws_ssm_parameter", "aws_security_group", "aws_ecs_service", "aws_db_instance",
   "aws_appautoscaling_policy", "aws_iam_role", "aws_service_discovery_service"]

def GetImportName (lib : GoLib) (a : Aws) (resourceType : String) (name : String)
    (resourceParameters : Params) : Exec ImportName :=
  if resourceType = "aws_elasticache_cluster" then
    getElasticacheClusterImportName lib a name resourceParameters
  else if resourceType = "aws_cloudwatch_log_group" then
    getCloudWatchGroupImportName a name
  else if resourceType = "aws_ecr_repository" then
    getEcrImportName a name
  else if resourceType = "aws_ssm_parameter" then
    getSsmParameterImportName a name
  else if resourceType = "aws_security_group" then
    getSecurityGroupImportName lib a name resourceParameters
  else if resourceType = "aws_ecs_service" then
    getEcsServiceImportName lib a name resourceParameters
  else if resourceType = "aws_db_instance" then
    getRdsInstance lib a name resourceParameters
  else if resourceType = "aws_appautoscaling_policy" then
    getAppAutoScalingPolicyImportName lib a name resourceParameters
  else if resourceType = "aws_iam_role" then
    getIamRoleImportName a name
  else if resourceType = "aws_service_discovery_service" then
    getServiceDiscoveryServiceImportName a name
  else
    pure ("", some ("resourceType not supported " ++ resourceType))

def ImporterName (_a : Aws) : String := "aws"

/-! ## importer/importer.go -/

/-- A value of the `Importer` interface: the pointer it holds, which is its identity, and
what its `ImporterName()` method returns. -/
structure Importer where
  ptr : Nat
  ImporterName : String
  deriving DecidableEq, Repr

/-- The function `RegisterImporter`, on the package variable `Importers` passed as explicit state; the
mutex only serialises callers. -/
def RegisterImporter (Importers : List Importer) (importer : Importer) : List Importer :=
  Importers ++ [importer]

/-- An `*Aws` at address `ptr` seen through the `Importer` interface. -/
def Aws.toImporter (a : Aws) (ptr : Nat) : Importer := ⟨ptr, ImporterName a⟩

/-- Modelled from the spec: `Lookup(name) -> plugin | NotFound`, which the source files do
not contain.  The spec describes it as a "linear scan by name" of the registry; the scan
runs in registration order and answers the first plugin bearing the name, `none` standing
for NotFound. -/
def Lookup (Importers : List Importer) (name : String) : Option Importer :=
  Importers.find? (fun importer => importer.ImporterName = name)

/-- Modelled from the spec: the registry invariant of the data model, "every registered
plugin has a non-empty, globally-unique name", which the source files do not state.  Two
entries of the registry that bear the same name are the same plugin (one plugin may be
registered twice, as registration does not deduplicate), and no name is empty. -/
def UniqueNames (Importers : List Importer) : Prop :=
  (∀ q ∈ Importers, ∀ r ∈ Importers, q.ImporterName = r.ImporterName → q = r)
  ∧ ∀ q ∈ Importers, q.ImporterName ≠ ""

/-! ## Sample library renderings and sessions -/

/-- A sample rendering of types, used in concrete runs. -/
def sampleLib : GoLib := ⟨fun _ => "<type>", fun _ => "<friendly type>"⟩

/-- A session in which every operation succeeds and every listing is empty. -/
def emptySession : Session where
  DescribeCacheClusters := fun _ => Except.ok []
  ListServices := Except.ok []
  GetRole := fun _ => Except.ok ()
  DescribeScalingPolicies := fun _ _ => Except.ok []
  DescribeDBInstances := fun _ => Except.ok []
  DescribeServices := fun _ _ => Except.ok []
  DescribeSecurityGroups := fun _ => Except.ok []
  GetParameter := fun n => Except.ok ⟨n⟩
  DescribeRepositories := fun _ => Except.ok []
  DescribeLogGroups := fun _ => Except.ok []

/-- A session in which every operation fails with the error `e`. -/
def failingSession (e : GoError) : Session where
  DescribeCacheClusters := fun _ => Except.error e
  ListServices := Except.error e
  GetRole := fun _ => Except.error e
  DescribeScalingPolicies := fun _ _ => Except.error e
  DescribeDBInstances := fun _ => Except.error e
  DescribeServices := fun _ _ => Except.error e
  DescribeSecurityGroups := fun _ => Except.error e
  GetParameter := fun _ => Except.error e
  DescribeRepositories := fun _ => Except.error e
  DescribeLogGroups := fun _ => Except.error e

/-- A session whose listings echo the requested key: the cache cluster, database instance,
service, policy, repository and log group asked for exist, and the security-group and
service-discovery listings hold two entries named `web`. -/
def echoSession : Session where
  DescribeCacheClusters := fun i => Except.ok [⟨i⟩]
  ListServices := Except.ok [⟨"api", "srv-1"⟩, ⟨"web", "srv-2"⟩, ⟨"web", "srv-3"⟩]
  GetRole := fun _ => Except.ok ()
  DescribeScalingPolicies := fun names _ => Except.ok (names.map ScalingPolicy.mk)
  DescribeDBInstances := fun i => Except.ok [⟨i⟩]
  DescribeServices := fun _ names => Except.ok (names.map EcsService.mk)
  DescribeSecurityGroups := fun _ =>
    Except.ok [⟨"db", "sg-1"⟩, ⟨"web", "sg-2"⟩, ⟨"web", "sg-3"⟩]
  GetParameter := fun n => Except.ok ⟨n⟩
  DescribeRepositories := fun names => Except.ok (names.map Repository.mk)
  DescribeLogGroups := fun n => Except.ok [⟨n⟩]

/-- The attribute `key` is absent from the map, or present with a type other than
`cty.String`. -/
def notStringTyped (m : Params) (key : String) : Prop :=
  m.lookup key = none ∨ ∃ v, m.lookup key = some v ∧ v.TypeOf ≠ CtyType.string

/-! ## Theorems -/

theorem isString_eq_false {t : CtyType} (h : t ≠ CtyType.string) : t.isString = false := by
  cases t <;> first | rfl | exact absurd rfl h

theorem index_notStringTyped {m : Params} {key : String} (h : notStringTyped m key) :
    (m.index key).TypeOf.isString = false := by
  rcases h with h | ⟨v, hv, hty⟩
  · simp [Params.index, h, cty.NilVal, Value.TypeOf, CtyType.isString]
  · simp [Params.index, hv, isString_eq_false hty]

theorem splitChars_ne_nil (sep : Char) (cs : List Char) : splitChars sep cs ≠ [] := by
  induction cs with
  | nil => simp [splitChars]
  | cons c cs ih =>
    unfold splitChars
    split
    · simp
    · split <;> simp

theorem splitChars_of_not_mem (sep : Char) (cs : List Char) (h : sep ∉ cs) :
    splitChars sep cs = [cs] := by
  induction cs with
  | nil => rfl
  | cons c cs ih =>
    have hc : c ≠ sep := fun e => h (by simp [e])
    have hcs : sep ∉ cs := fun e => h (by simp [e])
    simp [splitChars, hc, ih hcs]

theorem lastIndex_Split (s : String) (sep : Char) :
    ∃ last, (strings.Split s sep).getLast? = some last
      ∧ lastIndex (strings.Split s sep) = Res.val last := by
  have hne : strings.Split s sep ≠ [] := by
    simp [strings.Split, splitChars_ne_nil]
  cases hl : (strings.Split s sep).getLast? with
  | none => exact absurd (List.getLast?_eq_none_iff.mp hl) hne
  | some last => exact ⟨last, rfl, by simp [lastIndex, hl]⟩

/-- C1: for a resource type outside the ten cases of the switch, `GetImportName` returns
the empty identifier and the error "resourceType not supported " followed by the resource
type, and sends no request to the remote API. -/
theorem GetImportName_unsupported (lib : GoLib) (a : Aws) (resourceType name : String)
    (resourceParameters : Params) (h : resourceType ∉ supportedResourceTypes) :
    GetImportName lib a resourceType name resourceParameters
      = ⟨[], Res.val ("", some ("resourceType not supported " ++ resourceType))⟩ := by
  simp only [supportedResourceTypes, List.mem_cons, List.mem_singleton, not_or,
    List.not_mem_nil, not_false_eq_true, and_true] at h
  obtain ⟨h1, h2, h3, h4, h5, h6, h7, h8, h9, h10⟩ := h
  simp only [GetImportName, h1, h2, h3, h4, h5, h6, h7, h8, h9, h10, if_false]
  rfl

/-- Witness of C1: the resource type `aws_s3_bucket` has no case in the switch. -/
theorem GetImportName_unsupported_witness :
    "aws_s3_bucket" ∉ supportedResourceTypes
    ∧ GetImportName sampleLib ⟨echoSession⟩ "aws_s3_bucket" "assets" []
      = ⟨[], Res.val ("", some "resourceType not supported aws_s3_bucket")⟩ :=
  ⟨by decide,
   GetImportName_unsupported sampleLib ⟨echoSession⟩ "aws_s3_bucket" "assets" [] (by decide)⟩

theorem find?_of_exists {α : Type} (p : α → Bool) (l : List α) (h : ∃ x ∈ l, p x = true) :
    ∃ y, l.find? p = some y ∧ p y = true := by
  cases hf : l.find? p with
  | none =>
    obtain ⟨x, hx, hpx⟩ := h
    exact absurd hpx (List.find?_eq_none.mp hf x hx)
  | some y => exact ⟨y, rfl, List.find?_some hf⟩

/-- C6: cache-cluster resolution.  Without a string-typed `cluster_id` (absent, or of
another type) the function returns the empty identifier and an error and sends no request;
with a known string `s` as `cluster_id`, a successful call whose response holds a cluster
with id `s` makes it return `(s, nil)`. -/
theorem getElasticacheClusterImportName_contract (lib : GoLib) (a : Aws) (name : String)
    (resourceParameters : Params) :
    (notStringTyped resourceParameters "cluster_id" →
      getElasticacheClusterImportName lib a name resourceParameters
        = ⟨[], Res.val ("", some ("skipping " ++ name
            ++ " because its cluster id was not a string but "
            ++ lib.verbV (resourceParameters.index "cluster_id").TypeOf))⟩)
    ∧ (∀ s output, resourceParameters.index "cluster_id" = cty.StringVal s →
        a.session.DescribeCacheClusters s = Except.ok output →
        (∃ cluster ∈ output, cluster.CacheClusterId = s) →
        getElasticacheClusterImportName lib a name resourceParameters
          = ⟨[Request.DescribeCacheClusters s], Res.val (s, none)⟩) := by
  refine ⟨fun h => ?_, fun s output hs hcall hex => ?_⟩
  · simp only [getElasticacheClusterImportName, index_notStringTyped h]
    rfl
  · obtain ⟨y, hy, -⟩ := find?_of_exists (fun cluster => decide (cluster.CacheClusterId = s))
      output (by simpa using hex)
    simp [getElasticacheClusterImportName, hs, cty.StringVal, Value.TypeOf, Value.AsString,
      CtyType.isString, Exec.eval, Exec.call, bind, Exec.bind, hcall, hy, pure]

/-- Witness of C6: `cluster_id = "abc"` against a session that returns the cluster `abc`
gives `("abc", nil)`, and an empty attribute map gives an error with no request sent. -/
theorem getElasticacheClusterImportName_contract_witness :
    getElasticacheClusterImportName sampleLib ⟨echoSession⟩ "cache"
        [("cluster_id", cty.StringVal "abc")]
      = ⟨[Request.DescribeCacheClusters "abc"], Res.val ("abc", none)⟩
    ∧ notStringTyped [] "cluster_id"
    ∧ getElasticacheClusterImportName sampleLib ⟨echoSession⟩ "cache" []
        = ⟨[], Res.val ("", some
            "skipping cache because its cluster id was not a string but <type>")⟩ :=
  ⟨(getElasticacheClusterImportName_contract sampleLib ⟨echoSession⟩ "cache"
      [("cluster_id", cty.StringVal "abc")]).2 "abc" [⟨"abc"⟩] rfl rfl ⟨⟨"abc"⟩, by simp⟩,
   Or.inl rfl,
   (getElasticacheClusterImportName_contract sampleLib ⟨echoSession⟩ "cache" []).1
      (Or.inl rfl)⟩

/-- C5: security-group resolution with a string `vpc_id` and a successful call.  When no
entry of the listing bears the declared name the result is the not-found error naming it;
otherwise the listing splits at its first entry bearing the name and the result is that
entry's `GroupId` with a nil error, and every such split gives the same answer. -/
theorem getSecurityGroupImportName_first_match (lib : GoLib) (a : Aws) (name vpcID : String)
    (resourceParameters : Params) (listing : List SecurityGroup)
    (hattr : resourceParameters.index "vpc_id" = cty.StringVal vpcID)
    (hcall : a.session.DescribeSecurityGroups
      [⟨"vpc-id", [vpcID]⟩, ⟨"group-name", [name]⟩] = Except.ok listing) :
    ((∀ g ∈ listing, g.GroupName ≠ name) →
      getSecurityGroupImportName lib a name resourceParameters
        = ⟨[Request.DescribeSecurityGroups [⟨"vpc-id", [vpcID]⟩, ⟨"group-name", [name]⟩]],
            Res.val ("", some ("aws_security_group not found " ++ name))⟩)
    ∧ ((∃ g ∈ listing, g.GroupName = name) →
        ∃ before g after, listing = before ++ g :: after
          ∧ (∀ x ∈ before, x.GroupName ≠ name) ∧ g.GroupName = name)
    ∧ (∀ before g after, listing = before ++ g :: after →
        (∀ x ∈ before, x.GroupName ≠ name) → g.GroupName = name →
        getSecurityGroupImportName lib a name resourceParameters
          = ⟨[Request.DescribeSecurityGroups [⟨"vpc-id", [vpcID]⟩, ⟨"group-name", [name]⟩]],
              Res.val (g.GroupId, none)⟩) := by
  refine ⟨fun hnone => ?_, fun hex => ?_, fun before g after hsplit hbefore hg => ?_⟩
  · have hf : listing.find? (fun securityGroup => decide (securityGroup.GroupName = name))
        = none := by
      simpa using hnone
    simp [getSecurityGroupImportName, hattr, cty.StringVal, Value.TypeOf, Value.AsString,
      CtyType.isString, Exec.eval, Exec.call, bind, Exec.bind, hcall, hf, pure]
  · obtain ⟨y, hy, -⟩ := find?_of_exists
      (fun securityGroup => decide (securityGroup.GroupName = name)) listing
      (by simpa using hex)
    obtain ⟨hp, before, after, hsplit, hbefore⟩ := List.find?_eq_some.mp hy
    exact ⟨before, y, after, hsplit, by simpa using hbefore, by simpa using hp⟩
  · have hf : listing.find? (fun securityGroup => decide (securityGroup.GroupName = name))
        = some g :=
      List.find?_eq_some.mpr ⟨by simpa using hg, before, after, hsplit, by simpa using hbefore⟩
    simp [getSecurityGroupImportName, hattr, cty.StringVal, Value.TypeOf, Value.AsString,
      CtyType.isString, Exec.eval, Exec.call, bind, Exec.bind, hcall, hf, pure]

/-- Witness of C5: the listing `db/sg-1, web/sg-2, web/sg-3` resolves the declared name
`web` to `sg-2`, the id of the first entry named `web`. -/
theorem getSecurityGroupImportName_first_match_witness :
    getSecurityGroupImportName sampleLib ⟨echoSession⟩ "web" [("vpc_id", cty.StringVal "vpc-1")]
      = ⟨[Request.DescribeSecurityGroups [⟨"vpc-id", ["vpc-1"]⟩, ⟨"group-name", ["web"]⟩]],
          Res.val ("sg-2", none)⟩ :=
  (getSecurityGroupImportName_first_match sampleLib ⟨echoSession⟩ "web" "vpc-1"
    [("vpc_id", cty.StringVal "vpc-1")] [⟨"db", "sg-1"⟩, ⟨"web", "sg-2"⟩, ⟨"web", "sg-3"⟩]
    rfl rfl).2.2 [⟨"db", "sg-1"⟩] ⟨"web", "sg-2"⟩ [⟨"web", "sg-3"⟩] rfl (by decide) rfl

/-- C4: container-service resolution.  With a string `cluster` value `c`, a successful call
and a response holding a service named `n`, the result is the last piece of `c` split on
"/", then "/", then `n`, with a nil error; a `c` without "/" gives `c ++ "/" ++ n`. -/
theorem getEcsServiceImportName_identifier (lib : GoLib) (a : Aws) (n c : String)
    (resourceParameters : Params) (output : List EcsService)
    (hattr : resourceParameters.index "cluster" = cty.StringVal c)
    (hcall : a.session.DescribeServices c [n] = Except.ok output)
    (hex : ∃ service ∈ output, service.ServiceName = n) :
    (∃ last, (strings.Split c '/').getLast? = some last
      ∧ getEcsServiceImportName lib a n resourceParameters
        = ⟨[Request.DescribeServices c [n]], Res.val (last ++ "/" ++ n, none)⟩)
    ∧ ('/' ∉ c.data →
        getEcsServiceImportName lib a n resourceParameters
          = ⟨[Request.DescribeServices c [n]], Res.val (c ++ "/" ++ n, none)⟩) := by
  obtain ⟨y, hy, -⟩ := find?_of_exists (fun service => decide (service.ServiceName = n))
    output (by simpa using hex)
  obtain ⟨last, hlast, hidx⟩ := lastIndex_Split c '/'
  have hrun : getEcsServiceImportName lib a n resourceParameters
      = ⟨[Request.DescribeServices c [n]], Res.val (last ++ "/" ++ n, none)⟩ := by
    simp [getEcsServiceImportName, hattr, cty.StringVal, Value.TypeOf, Value.AsString,
      CtyType.isString, Exec.eval, Exec.call, bind, Exec.bind, hcall, hy, hidx, pure]
  refine ⟨⟨last, hlast, hrun⟩, fun hno => ?_⟩
  have hsplit : strings.Split c '/' = [c] := by
    simp [strings.Split, splitChars_of_not_mem '/' c.data hno]
  rw [hsplit] at hlast
  have hc : last = c := by simpa using hlast.symm
  rw [hrun, hc]

/-- Witness of C4: `cluster = "arn:aws:ecs:...:cluster/prod"` and the declared name `web`,
against a session that confirms the service, give `prod/web`; the cluster `prod`, which
has no "/", gives `prod/web` too. -/
theorem getEcsServiceImportName_identifier_witness :
    getEcsServiceImportName sampleLib ⟨echoSession⟩ "web"
        [("cluster", cty.StringVal "arn:aws:ecs:...:cluster/prod")]
      = ⟨[Request.DescribeServices "arn:aws:ecs:...:cluster/prod" ["web"]],
          Res.val ("prod/web", none)⟩
    ∧ getEcsServiceImportName sampleLib ⟨echoSession⟩ "web" [("cluster", cty.StringVal "prod")]
      = ⟨[Request.DescribeServices "prod" ["web"]], Res.val ("prod/web", none)⟩ := by
  constructor
  · obtain ⟨last, hlast, hrun⟩ := (getEcsServiceImportName_identifier sampleLib ⟨echoSession⟩
      "web" "arn:aws:ecs:...:cluster/prod"
      [("cluster", cty.StringVal "arn:aws:ecs:...:cluster/prod")] [⟨"web"⟩] rfl rfl
      ⟨⟨"web"⟩, by simp⟩).1
    have hl : (strings.Split "arn:aws:ecs:...:cluster/prod" '/').getLast? = some "prod" := by
      decide
    rw [hl] at hlast
    have : last = "prod" := by simpa using hlast.symm
    rw [hrun, this]
    rfl
  · exact (getEcsServiceImportName_identifier sampleLib ⟨echoSession⟩ "web" "prod"
      [("cluster", cty.StringVal "prod")] [⟨"web"⟩] rfl rfl ⟨⟨"web"⟩, by simp⟩).2 (by decide)

theorem find?_none_of_forall {α : Type} (p : α → Bool) (l : List α)
    (h : ∀ x ∈ l, p x = false) : l.find? p = none := by
  simpa using h

/-- Counterexample to C7 as stated: declared name `cache`, `cluster_id = "abc"`, a successful
call with an empty response.  The cache-cluster resolver's not-found message ends with the
cluster id `abc`, not with the declared name `cache`. -/
theorem notFound_elasticache_names_cluster_id :
    emptySession.DescribeCacheClusters "abc" = Except.ok []
    ∧ getElasticacheClusterImportName sampleLib ⟨emptySession⟩ "cache"
        [("cluster_id", cty.StringVal "abc")]
      = ⟨[Request.DescribeCacheClusters "abc"],
          Res.val ("", some "aws_elasticache_cluster not found abc")⟩
    ∧ getElasticacheClusterImportName sampleLib ⟨emptySession⟩ "cache"
        [("cluster_id", cty.StringVal "abc")]
      ≠ ⟨[Request.DescribeCacheClusters "abc"],
          Res.val ("", some ("aws_elasticache_cluster not found " ++ "cache"))⟩ :=
  ⟨rfl, by decide, by decide⟩

/-- C7, amended: after a successful call in whose response no entry satisfies the match
rule, each scanning resolver returns the empty identifier and the error made of the
resource type, " not found " and the declared name; the cache-cluster resolver ends the
message with the `cluster_id` value instead of the declared name. -/
theorem notFound_message (lib : GoLib) (a : Aws) (name : String)
    (resourceParameters : Params) :
    (∀ s output, resourceParameters.index "cluster_id" = cty.StringVal s →
      a.session.DescribeCacheClusters s = Except.ok output →
      (∀ x ∈ output, x.CacheClusterId ≠ s) →
      getElasticacheClusterImportName lib a name resourceParameters
        = ⟨[Request.DescribeCacheClusters s],
            Res.val ("", some ("aws_elasticache_cluster not found " ++ s))⟩)
    ∧ (∀ output, a.session.DescribeLogGroups name = Except.ok output →
      (∀ x ∈ output, x.LogGroupName ≠ name) →
      getCloudWatchGroupImportName a name
        = ⟨[Request.DescribeLogGroups name],
            Res.val ("", some ("aws_cloudwatch_log_group not found " ++ name))⟩)
    ∧ (∀ output, a.session.DescribeRepositories [name] = Except.ok output →
      (∀ x ∈ output, x.RepositoryName ≠ name) →
      getEcrImportName a name
        = ⟨[Request.DescribeRepositories [name]],
            Res.val ("", some ("aws_ecr_repository not found " ++ name))⟩)
    ∧ (∀ s output, resourceParameters.index "vpc_id" = cty.StringVal s →
      a.session.DescribeSecurityGroups [⟨"vpc-id", [s]⟩, ⟨"group-name", [name]⟩]
        = Except.ok output →
      (∀ x ∈ output, x.GroupName ≠ name) →
      getSecurityGroupImportName lib a name resourceParameters
        = ⟨[Request.DescribeSecurityGroups [⟨"vpc-id", [s]⟩, ⟨"group-name", [name]⟩]],
            Res.val ("", some ("aws_security_group not found " ++ name))⟩)
    ∧ (∀ s output, resourceParameters.index "cluster" = cty.StringVal s →
      a.session.DescribeServices s [name] = Except.ok output →
      (∀ x ∈ output, x.ServiceName ≠ name) →
      getEcsServiceImportName lib a name resourceParameters
        = ⟨[Request.DescribeServices s [name]],
            Res.val ("", some ("aws_ecs_service not found " ++ name))⟩)
    ∧ (∀ s output, resourceParameters.index "identifier" = cty.StringVal s →
      a.session.DescribeDBInstances s = Except.ok output →
      (∀ x ∈ output, x.DBInstanceIdentifier ≠ s) →
      getRdsInstance lib a name resourceParameters
        = ⟨[Request.DescribeDBInstances s],
            Res.val ("", some ("aws_db_instance not found " ++ name))⟩)
    ∧ (∀ s output, resourceParameters.index "identifier" = cty.StringVal s →
      a.session.DescribeScalingPolicies [name] s = Except.ok output →
      (∀ x ∈ output, x.PolicyName ≠ name) →
      getAppAutoScalingPolicyImportName lib a name resourceParameters
        = ⟨[Request.DescribeScalingPolicies [name] s],
            Res.val ("", some ("aws_appautoscaling_policy not found " ++ name))⟩)
    ∧ (∀ output, a.session.ListServices = Except.ok output →
      (∀ x ∈ output, x.Name ≠ name) →
      getServiceDiscoveryServiceImportName a name
        = ⟨[Request.ListServices],
            Res.val ("", some ("aws_service_discovery_service not found " ++ name))⟩) := by
  refine ⟨?_, ?_, ?_, ?_, ?_, ?_, ?_, ?_⟩
  · intro s output hattr hcall hno
    have hf := find?_none_of_forall (fun c : CacheCluster => decide (c.CacheClusterId = s))
      output (by simpa using hno)
    simp [getElasticacheClusterImportName, hattr, cty.StringVal, Value.TypeOf,
      Value.AsString, CtyType.isString, Exec.eval, Exec.call, bind, Exec.bind, hcall, hf, pure]
  · intro output hcall hno
    have hf := find?_none_of_forall (fun g : LogGroup => decide (g.LogGroupName = name))
      output (by simpa using hno)
    simp [getCloudWatchGroupImportName, Exec.call, bind, Exec.bind, hcall, hf, pure]
  · intro output hcall hno
    have hf := find?_none_of_forall (fun r : Repository => decide (r.RepositoryName = name))
      output (by simpa using hno)
    simp [getEcrImportName, Exec.call, bind, Exec.bind, hcall, hf, pure]
  · intro s output hattr hcall hno
    have hf := find?_none_of_forall (fun g : SecurityGroup => decide (g.GroupName = name))
      output (by simpa using hno)
    simp [getSecurityGroupImportName, hattr, cty.StringVal, Value.TypeOf,
      Value.AsString, CtyType.isString, Exec.eval, Exec.call, bind, Exec.bind, hcall, hf, pure]
  · intro s output hattr hcall hno
    have hf := find?_none_of_forall (fun x : EcsService => decide (x.ServiceName = name))
      output (by simpa using hno)
    simp [getEcsServiceImportName, hattr, cty.StringVal, Value.TypeOf,
      Value.AsString, CtyType.isString, Exec.eval, Exec.call, bind, Exec.bind, hcall, hf, pure]
  · intro s output hattr hcall hno
    have hf := find?_none_of_forall (fun x : DBInstance => decide (x.DBInstanceIdentifier = s))
      output (by simpa using hno)
    simp [getRdsInstance, hattr, cty.StringVal, Value.TypeOf,
      Value.AsString, CtyType.isString, Exec.eval, Exec.call, bind, Exec.bind, hcall, hf, pure]
  · intro s output hattr hcall hno
    have hf := find?_none_of_forall (fun x : ScalingPolicy => decide (x.PolicyName = name))
      output (by simpa using hno)
    simp [getAppAutoScalingPolicyImportName, hattr, cty.StringVal, Value.TypeOf,
      Value.AsString, CtyType.isString, Exec.eval, Exec.call, bind, Exec.bind, hcall, hf, pure]
  · intro output hcall hno
    have hf := find?_none_of_forall (fun x : ServiceSummary => decide (x.Name = name))
      output (by simpa using hno)
    simp [getServiceDiscoveryServiceImportName, Exec.call, bind, Exec.bind, hcall, hf, pure]

/-- Witness of C7 (amended): against a session whose listings are all empty, the
database-instance resolver names the declared name `main` and the cache-cluster resolver
names the cluster id `abc`. -/
theorem notFound_message_witness :
    getRdsInstance sampleLib ⟨emptySession⟩ "main" [("identifier", cty.StringVal "db-1")]
      = ⟨[Request.DescribeDBInstances "db-1"],
          Res.val ("", some "aws_db_instance not found main")⟩
    ∧ getElasticacheClusterImportName sampleLib ⟨emptySession⟩ "main"
        [("cluster_id", cty.StringVal "abc")]
      = ⟨[Request.DescribeCacheClusters "abc"],
          Res.val ("", some "aws_elasticache_cluster not found abc")⟩ :=
  ⟨(notFound_message sampleLib ⟨emptySession⟩ "main"
      [("identifier", cty.StringVal "db-1")]).2.2.2.2.2.1 "db-1" [] rfl rfl (by simp),
   (notFound_message sampleLib ⟨emptySession⟩ "main"
      [("cluster_id", cty.StringVal "abc")]).1 "abc" [] rfl rfl (by simp)⟩

/-- Counterexample to C2 as stated: the container-service resolver is not one of the four
listed, yet when `DescribeServices` fails with the error `throttled` it returns `("", nil)`
and not `("", throttled)`. -/
theorem getEcsServiceImportName_swallows_api_error :
    (failingSession "throttled").DescribeServices "prod" ["web"] = Except.error "throttled"
    ∧ getEcsServiceImportName sampleLib ⟨failingSession "throttled"⟩ "web"
        [("cluster", cty.StringVal "prod")]
      = ⟨[Request.DescribeServices "prod" ["web"]], Res.val ("", none)⟩
    ∧ getEcsServiceImportName sampleLib ⟨failingSession "throttled"⟩ "web"
        [("cluster", cty.StringVal "prod")]
      ≠ ⟨[Request.DescribeServices "prod" ["web"]], Res.val ("", some "throttled")⟩ :=
  ⟨rfl, by decide, by decide⟩

/-- C2, amended: when the API call fails with the error `e`, the cache-cluster,
service-discovery, autoscaling-policy, database-instance and security-group resolvers return
`("", e)`, and the iam-role, container-service, parameter-store, container-registry and
log-group resolvers return `("", nil)`. -/
theorem api_error_policy (lib : GoLib) (a : Aws) (name : String)
    (resourceParameters : Params) (e : GoError) :
    (∀ s, resourceParameters.index "cluster_id" = cty.StringVal s →
      a.session.DescribeCacheClusters s = Except.error e →
      getElasticacheClusterImportName lib a name resourceParameters
        = ⟨[Request.DescribeCacheClusters s], Res.val ("", some e)⟩)
    ∧ (a.session.ListServices = Except.error e →
      getServiceDiscoveryServiceImportName a name
        = ⟨[Request.ListServices], Res.val ("", some e)⟩)
    ∧ (∀ s, resourceParameters.index "identifier" = cty.StringVal s →
      a.session.DescribeScalingPolicies [name] s = Except.error e →
      getAppAutoScalingPolicyImportName lib a name resourceParameters
        = ⟨[Request.DescribeScalingPolicies [name] s], Res.val ("", some e)⟩)
    ∧ (∀ s, resourceParameters.index "identifier" = cty.StringVal s →
      a.session.DescribeDBInstances s = Except.error e →
      getRdsInstance lib a name resourceParameters
        = ⟨[Request.DescribeDBInstances s], Res.val ("", some e)⟩)
    ∧ (∀ s, resourceParameters.index "vpc_id" = cty.StringVal s →
      a.session.DescribeSecurityGroups [⟨"vpc-id", [s]⟩, ⟨"group-name", [name]⟩]
        = Except.error e →
      getSecurityGroupImportName lib a name resourceParameters
        = ⟨[Request.DescribeSecurityGroups [⟨"vpc-id", [s]⟩, ⟨"group-name", [name]⟩]],
            Res.val ("", some e)⟩)
    ∧ (a.session.GetRole name = Except.error e →
      getIamRoleImportName a name = ⟨[Request.GetRole name], Res.val ("", none)⟩)
    ∧ (∀ s, resourceParameters.index "cluster" = cty.StringVal s →
      a.session.DescribeServices s [name] = Except.error e →
      getEcsServiceImportName lib a name resourceParameters
        = ⟨[Request.DescribeServices s [name]], Res.val ("", none)⟩)
    ∧ (a.session.GetParameter name = Except.error e →
      getSsmParameterImportName a name = ⟨[Request.GetParameter name], Res.val ("", none)⟩)
    ∧ (a.session.DescribeRepositories [name] = Except.error e →
      getEcrImportName a name = ⟨[Request.DescribeRepositories [name]], Res.val ("", none)⟩)
    ∧ (a.session.DescribeLogGroups name = Except.error e →
      getCloudWatchGroupImportName a name
        = ⟨[Request.DescribeLogGroups name], Res.val ("", none)⟩) := by
  refine ⟨?_, ?_, ?_, ?_, ?_, ?_, ?_, ?_, ?_, ?_⟩
  · intro s hattr hcall
    simp [getElasticacheClusterImportName, hattr, cty.StringVal, Value.TypeOf,
      Value.AsString, CtyType.isString, Exec.eval, Exec.call, bind, Exec.bind, hcall, pure]
  · intro hcall
    simp [getServiceDiscoveryServiceImportName, Exec.call, bind, Exec.bind, hcall, pure]
  · intro s hattr hcall
    simp [getAppAutoScalingPolicyImportName, hattr, cty.StringVal, Value.TypeOf,
      Value.AsString, CtyType.isString, Exec.eval, Exec.call, bind, Exec.bind, hcall, pure]
  · intro s hattr hcall
    simp [getRdsInstance, hattr, cty.StringVal, Value.TypeOf,
      Value.AsString, CtyType.isString, Exec.eval, Exec.call, bind, Exec.bind, hcall, pure]
  · intro s hattr hcall
    simp [getSecurityGroupImportName, hattr, cty.StringVal, Value.TypeOf,
      Value.AsString, CtyType.isString, Exec.eval, Exec.call, bind, Exec.bind, hcall, pure]
  · intro hcall
    simp [getIamRoleImportName, Exec.call, bind, Exec.bind, hcall, pure]
  · intro s hattr hcall
    simp [getEcsServiceImportName, hattr, cty.StringVal, Value.TypeOf,
      Value.AsString, CtyType.isString, Exec.eval, Exec.call, bind, Exec.bind, hcall, pure]
  · intro hcall
    simp [getSsmParameterImportName, Exec.call, bind, Exec.bind, hcall, pure]
  · intro hcall
    simp [getEcrImportName, Exec.call, bind, Exec.bind, hcall, pure]
  · intro hcall
    simp [getCloudWatchGroupImportName, Exec.call, bind, Exec.bind, hcall, pure]

/-- Witness of C2 (amended): against a session whose every operation fails with
`throttled`, the security-group resolver returns that error and the container-service
resolver returns no error. -/
theorem api_error_policy_witness :
    getSecurityGroupImportName sampleLib ⟨failingSession "throttled"⟩ "web"
        [("vpc_id", cty.StringVal "vpc-1")]
      = ⟨[Request.DescribeSecurityGroups [⟨"vpc-id", ["vpc-1"]⟩, ⟨"group-name", ["web"]⟩]],
          Res.val ("", some "throttled")⟩
    ∧ getEcsServiceImportName sampleLib ⟨failingSession "throttled"⟩ "web"
        [("cluster", cty.StringVal "prod")]
      = ⟨[Request.DescribeServices "prod" ["web"]], Res.val ("", none)⟩ :=
  ⟨(api_error_policy sampleLib ⟨failingSession "throttled"⟩ "web"
      [("vpc_id", cty.StringVal "vpc-1")] "throttled").2.2.2.2.1 "vpc-1" rfl rfl,
   (api_error_policy sampleLib ⟨failingSession "throttled"⟩ "web"
      [("cluster", cty.StringVal "prod")] "throttled").2.2.2.2.2.2.1 "prod" rfl rfl⟩

/-- C8: `RegisterImporter` leaves the registry equal to the old one with the plugin
appended: the old entries are the first entries of the new registry, in order; the plugin
is the last; the length grows by one; and the plugin occurs once more than before,
whether or not it was already registered. -/
theorem RegisterImporter_appends (Importers : List Importer) (importer : Importer) :
    RegisterImporter Importers importer = Importers ++ [importer]
    ∧ (RegisterImporter Importers importer).take Importers.length = Importers
    ∧ (RegisterImporter Importers importer).drop Importers.length = [importer]
    ∧ (RegisterImporter Importers importer).getLast? = some importer
    ∧ (RegisterImporter Importers importer).length = Importers.length + 1
    ∧ (RegisterImporter Importers importer).count importer
        = Importers.count importer + 1 := by
  refine ⟨rfl, ?_, ?_, ?_, ?_, ?_⟩ <;> simp [RegisterImporter]

theorem Lookup_append_singleton (Importers : List Importer) (p : Importer) :
    Lookup (Importers ++ [p]) p.ImporterName = some ((Lookup Importers p.ImporterName).getD p) := by
  unfold Lookup
  induction Importers with
  | nil => simp
  | cons q rest ih =>
    by_cases hq : q.ImporterName = p.ImporterName
    · simp [hq]
    · simpa [hq] using ih

/-- C9: registry round trip.  In a registry that keeps the invariant of unique names,
registering `p` and looking up the name of `p` returns the plugin `p` itself; and in every
registry, looking up a name that no registered plugin bears returns NotFound. -/
theorem Register_Lookup_roundtrip (Importers : List Importer) (p : Importer) :
    (UniqueNames (RegisterImporter Importers p) →
      Lookup (RegisterImporter Importers p) p.ImporterName = some p)
    ∧ (∀ name, (∀ q ∈ Importers, q.ImporterName ≠ name) → Lookup Importers name = none) := by
  refine ⟨fun hinv => ?_, fun name hfresh => ?_⟩
  · rw [RegisterImporter, Lookup_append_singleton]
    cases hl : Lookup Importers p.ImporterName with
    | none => rfl
    | some q =>
      have hq : q.ImporterName = p.ImporterName := by simpa using List.find?_some hl
      have hmem : q ∈ Importers := List.mem_of_find?_eq_some hl
      have : q = p := hinv.1 q (by simp [RegisterImporter, hmem]) p
        (by simp [RegisterImporter]) hq
      simp [this]
  · simpa [Lookup] using hfresh

/-- Witness of C9: with one plugin named `gcp` registered, registering an `Aws` plugin keeps
the names unique, looking up `aws` returns that plugin, and looking up `azure` in the old
registry finds nothing. -/
theorem Register_Lookup_roundtrip_witness :
    UniqueNames (RegisterImporter [⟨0, "gcp"⟩] (Aws.toImporter ⟨emptySession⟩ 1))
    ∧ Lookup (RegisterImporter [⟨0, "gcp"⟩] (Aws.toImporter ⟨emptySession⟩ 1))
      (Aws.toImporter ⟨emptySession⟩ 1).ImporterName
      = some (Aws.toImporter ⟨emptySession⟩ 1)
    ∧ Lookup [⟨0, "gcp"⟩] "azure" = none :=
  have hinv : UniqueNames (RegisterImporter [⟨0, "gcp"⟩] (Aws.toImporter ⟨emptySession⟩ 1)) :=
    ⟨by decide, by decide⟩
  ⟨hinv,
   (Register_Lookup_roundtrip [⟨0, "gcp"⟩] (Aws.toImporter ⟨emptySession⟩ 1)).1 hinv,
   (Register_Lookup_roundtrip [⟨0, "gcp"⟩] (Aws.toImporter ⟨emptySession⟩ 1)).2
      "azure" (by decide)⟩

/-- C3: runs of the resolvers on an attribute map that lacks the required attribute.  The
security-group, container-service and database-instance resolvers panic while they build
the skip message (`FriendlyName()` on the zero type) and return nothing; the cache-cluster
and autoscaling-policy resolvers return the skip error.  No request is sent in any run. -/
theorem skip_on_absent_attribute :
    getSecurityGroupImportName sampleLib ⟨emptySession⟩ "web" []
      = ⟨[], Res.panic "runtime error: invalid memory address or nil pointer dereference"⟩
    ∧ getEcsServiceImportName sampleLib ⟨emptySession⟩ "web" []
      = ⟨[], Res.panic "runtime error: invalid memory address or nil pointer dereference"⟩
    ∧ getRdsInstance sampleLib ⟨emptySession⟩ "web" []
      = ⟨[], Res.panic "runtime error: invalid memory address or nil pointer dereference"⟩
    ∧ getElasticacheClusterImportName sampleLib ⟨emptySession⟩ "web" []
      = ⟨[], Res.val ("", some
          "skipping web because its cluster id was not a string but <type>")⟩
    ∧ getAppAutoScalingPolicyImportName sampleLib ⟨emptySession⟩ "web" []
      = ⟨[], Res.val ("", some
          "skipping web because its service namespace was not a string but <type>")⟩ := by
  decide

/-- C10: runs of the resolvers on a null and on an unknown value of type `cty.String`.  The
type check lets the value through and `AsString()` panics, so the resolver returns
nothing; no request is sent. -/
theorem AsString_panics_behind_type_check :
    getElasticacheClusterImportName sampleLib ⟨emptySession⟩ "web"
        [("cluster_id", cty.NullVal CtyType.string)]
      = ⟨[], Res.panic "value is null"⟩
    ∧ getElasticacheClusterImportName sampleLib ⟨emptySession⟩ "web"
        [("cluster_id", cty.UnknownVal CtyType.string)]
      = ⟨[], Res.panic "value is unknown"⟩
    ∧ getRdsInstance sampleLib ⟨emptySession⟩ "web"
        [("identifier", cty.NullVal CtyType.string)]
      = ⟨[], Res.panic "value is null"⟩
    ∧ getRdsInstance sampleLib ⟨emptySession⟩ "web"
        [("identifier", cty.UnknownVal CtyType.string)]
      = ⟨[], Res.panic "value is unknown"⟩
    ∧ getEcsServiceImportName sampleLib ⟨emptySession⟩ "web"
        [("cluster", cty.NullVal CtyType.string)]
      = ⟨[], Res.panic "value is null"⟩
    ∧ getEcsServiceImportName sampleLib ⟨emptySession⟩ "web"
        [("cluster", cty.UnknownVal CtyType.string)]
      = ⟨[], Res.panic "value is unknown"⟩
    ∧ getSecurityGroupImportName sampleLib ⟨emptySession⟩ "web"
        [("vpc_id", cty.NullVal CtyType.string)]
      = ⟨[], Res.panic "value is null"⟩
    ∧ getSecurityGroupImportName sampleLib ⟨emptySession⟩ "web"
        [("vpc_id", cty.UnknownVal CtyType.string)]
      = ⟨[], Res.panic "value is unknown"⟩
    ∧ getAppAutoScalingPolicyImportName sampleLib ⟨emptySession⟩ "web"
        [("identifier", cty.NullVal CtyType.string)]
      = ⟨[], Res.panic "value is null"⟩
    ∧ getAppAutoScalingPolicyImportName sampleLib ⟨emptySession⟩ "web"
        [("identifier", cty.UnknownVal CtyType.string)]
      = ⟨[], Res.panic "value is unknown"⟩ := by
  decide

/-- The skip path on an attribute that is present with a valid type other than
`cty.String`: each of the five resolvers returns the empty identifier and a skip error that
carries the declared name, a label of the attribute and a rendering of the type, and sends
no request. -/
theorem skip_on_wrong_type (lib : GoLib) (a : Aws) (name : String)
    (resourceParameters : Params) (v : Value)
    (hstr : v.TypeOf ≠ CtyType.string) (hnil : v.TypeOf ≠ CtyType.nilType) :
    (resourceParameters.lookup "cluster_id" = some v →
      getElasticacheClusterImportName lib a name resourceParameters
        = ⟨[], Res.val ("", some ("skipping " ++ name
            ++ " because its cluster id was not a string but " ++ lib.verbV v.TypeOf))⟩)
    ∧ (resourceParameters.lookup "vpc_id" = some v →
      getSecurityGroupImportName lib a name resourceParameters
        = ⟨[], Res.val ("", some ("skipping " ++ name
            ++ " because its vpc id was not a string but " ++ lib.friendlyName v.TypeOf))⟩)
    ∧ (resourceParameters.lookup "cluster" = some v →
      getEcsServiceImportName lib a name resourceParameters
        = ⟨[], Res.val ("", some ("skipping " ++ name
            ++ " because its cluster was not a string but " ++ lib.friendlyName v.TypeOf))⟩)
    ∧ (resourceParameters.lookup "identifier" = some v →
      getRdsInstance lib a name resourceParameters
        = ⟨[], Res.val ("", some ("skipping " ++ name
            ++ " because its identifier was not a string but "
            ++ lib.friendlyName v.TypeOf))⟩)
    ∧ (resourceParameters.lookup "identifier" = some v →
      getAppAutoScalingPolicyImportName lib a name resourceParameters
        = ⟨[], Res.val ("", some ("skipping " ++ name
            ++ " because its service namespace was not a string but "
            ++ lib.verbV v.TypeOf))⟩) := by
  have hs : v.TypeOf.isString = false := isString_eq_false hstr
  have hf : v.TypeOf.FriendlyName lib = Res.val (lib.friendlyName v.TypeOf) := by
    unfold CtyType.FriendlyName
    split
    · next h => exact absurd h hnil
    · rfl
  refine ⟨?_, ?_, ?_, ?_, ?_⟩ <;> intro hl
  · simp [getElasticacheClusterImportName, Params.index, hl, hs, pure]
  · simp [getSecurityGroupImportName, Params.index, hl, hs, hf, Exec.eval, bind, Exec.bind,
      pure]
  · simp [getEcsServiceImportName, Params.index, hl, hs, hf, Exec.eval, bind, Exec.bind, pure]
  · simp [getRdsInstance, Params.index, hl, hs, hf, Exec.eval, bind, Exec.bind, pure]
  · simp [getAppAutoScalingPolicyImportName, Params.index, hl, hs, pure]

/-- On a known, non-null string value of the required attribute none of the five resolvers
panics: each returns a pair. -/
theorem returns_on_known_string (lib : GoLib) (a : Aws) (name s : String)
    (resourceParameters : Params) :
    (resourceParameters.index "cluster_id" = cty.StringVal s →
      ∃ r, (getElasticacheClusterImportName lib a name resourceParameters).res = Res.val r)
    ∧ (resourceParameters.index "vpc_id" = cty.StringVal s →
      ∃ r, (getSecurityGroupImportName lib a name resourceParameters).res = Res.val r)
    ∧ (resourceParameters.index "cluster" = cty.StringVal s →
      ∃ r, (getEcsServiceImportName lib a name resourceParameters).res = Res.val r)
    ∧ (resourceParameters.index "identifier" = cty.StringVal s →
      ∃ r, (getRdsInstance lib a name resourceParameters).res = Res.val r)
    ∧ (resourceParameters.index "identifier" = cty.StringVal s →
      ∃ r, (getAppAutoScalingPolicyImportName lib a name resourceParameters).res
        = Res.val r) := by
  refine ⟨?_, ?_, ?_, ?_, ?_⟩ <;> intro hattr
  · cases hc : a.session.DescribeCacheClusters s with
    | error e =>
      simp [getElasticacheClusterImportName, hattr, cty.StringVal, Value.TypeOf,
        Value.AsString, CtyType.isString, Exec.eval, Exec.call, bind, Exec.bind, hc, pure]
    | ok output =>
      cases hf : output.find? (fun cluster => decide (cluster.CacheClusterId = s)) <;>
      simp [getElasticacheClusterImportName, hattr, cty.StringVal, Value.TypeOf,
        Value.AsString, CtyType.isString, Exec.eval, Exec.call, bind, Exec.bind, hc, hf, pure]
  · cases hc : a.session.DescribeSecurityGroups [⟨"vpc-id", [s]⟩, ⟨"group-name", [name]⟩] with
    | error e =>
      simp [getSecurityGroupImportName, hattr, cty.StringVal, Value.TypeOf,
        Value.AsString, CtyType.isString, Exec.eval, Exec.call, bind, Exec.bind, hc, pure]
    | ok output =>
      cases hf : output.find? (fun g => decide (g.GroupName = name)) <;>
      simp [getSecurityGroupImportName, hattr, cty.StringVal, Value.TypeOf,
        Value.AsString, CtyType.isString, Exec.eval, Exec.call, bind, Exec.bind, hc, hf, pure]
  · obtain ⟨last, -, hidx⟩ := lastIndex_Split s '/'
    cases hc : a.session.DescribeServices s [name] with
    | error e =>
      simp [getEcsServiceImportName, hattr, cty.StringVal, Value.TypeOf,
        Value.AsString, CtyType.isString, Exec.eval, Exec.call, bind, Exec.bind, hc, pure]
    | ok output =>
      cases hf : output.find? (fun x => decide (x.ServiceName = name)) <;>
      simp [getEcsServiceImportName, hattr, cty.StringVal, Value.TypeOf,
        Value.AsString, CtyType.isString, Exec.eval, Exec.call, bind, Exec.bind, hc, hf, hidx,
        pure]
  · cases hc : a.session.DescribeDBInstances s with
    | error e =>
      simp [getRdsInstance, hattr, cty.StringVal, Value.TypeOf,
        Value.AsString, CtyType.isString, Exec.eval, Exec.call, bind, Exec.bind, hc, pure]
    | ok output =>
      cases hf : output.find? (fun x => decide (x.DBInstanceIdentifier = s)) <;>
      simp [getRdsInstance, hattr, cty.StringVal, Value.TypeOf,
        Value.AsString, CtyType.isString, Exec.eval, Exec.call, bind, Exec.bind, hc, hf, pure]
  · cases hc : a.session.DescribeScalingPolicies [name] s with
    | error e =>
      simp [getAppAutoScalingPolicyImportName, hattr, cty.StringVal,
        Value.TypeOf, Value.AsString, CtyType.isString, Exec.eval, Exec.call, bind, Exec.bind,
        hc, pure]
    | ok output =>
      cases hf : output.find? (fun x => decide (x.PolicyName = name)) <;>
      simp [getAppAutoScalingPolicyImportName, hattr, cty.StringVal,
        Value.TypeOf, Value.AsString, CtyType.isString, Exec.eval, Exec.call, bind, Exec.bind,
        hc, hf, pure]

end TerraformPlanImporter
